import Mathlib

/-
Verification of the Scheduling Conflict and Notification Engine of the
itinerary-system repository. The definitions below are a shallow embedding
of the client code (App.js alias src/unnamed/part_008, NotificationBell.js
alias src/unnamed/part_009, and frontend/src/utils/constants.js). Instants
are integers (milliseconds since the epoch, the value of Date.getTime).
JavaScript Set state is modelled as a list with membership tests.
-/

namespace ItinerarySystem

/-- Calendar event as consumed by the notification hook: only the id, the
title and the start instant are read by that code path. -/
structure Event where
  id : Nat
  title : String
  start_time : Int
deriving DecidableEq

/-- Modelled from the spec: the backend ConflictDetector (server.py) is not
under src. Section 3 of the spec defines TimeRange as a half-open interval
with fields start and end and invariant start < end. -/
structure TimeRange where
  start : Int
  «end» : Int
deriving DecidableEq

/-- Modelled from the spec: two ranges overlap iff
a.start < b.end and b.start < a.end (half-open semantics). -/
def Overlaps (a b : TimeRange) : Bool :=
  decide (a.start < b.«end») && decide (b.start < a.«end»)

/-- RECURRENCE_OPTIONS from frontend/src/utils/constants.js lines 15 to 22:
the value and label pairs offered for the recurrence field. -/
def RECURRENCE_OPTIONS : List (String × String) :=
  [("none", "No Reminders"),
   ("once_daily", "Once a day"),
   ("twice_daily", "Twice a day"),
   ("three_times_daily", "3 times a day"),
   ("four_times_daily", "4 times a day"),
   ("five_times_daily", "5 times a day")]

/-- The CreateEvent recurrence select (part_008 lines 4821 to 4833) renders
exactly one option per RECURRENCE_OPTIONS entry, so the submittable values
are the first components. -/
def selectableRecurrenceValues : List String :=
  RECURRENCE_OPTIONS.map Prod.fst

/-- Shape of the response of the check-conflicts endpoint as consumed by the
client (part_008 lines 4554 to 4582): conflicts are reported by event id
here; suggested slots are time ranges. -/
structure ConflictCheckResult where
  has_conflict : Bool
  conflicts : List Nat
  suggested_slots : List TimeRange
deriving DecidableEq

/-- checkConflicts (part_008 lines 4554 to 4582): posts the candidate range
and returns the response body; on any request failure the catch branch
returns a result with has_conflict false and empty lists. The network
outcome is the parameter: none models a failed request. -/
def checkConflicts (response : Option ConflictCheckResult) : ConflictCheckResult :=
  match response with
  | some r => r
  | none => { has_conflict := false, conflicts := [], suggested_slots := [] }

/-- Requests the submission flow can issue, in order. The conflict check
request carries the excluded event id of the request body
(event_id equal to editId in edit mode and null otherwise, part_008 line 4565). -/
inductive ApiRequest where
  | conflictCheck (excludeEventId : Option Nat)
  | createEvent
  | updateEvent (eventId : Nat)
deriving DecidableEq

/-- Caller visible outcome of one submission. -/
inductive SubmitOutcome where
  | invalidRangeError
  | conflictModal (data : ConflictCheckResult)
  | submitted
deriving DecidableEq

/-- handleSubmit (part_008 lines 4595 to 4673): rejects start at or after
end before anything else; otherwise runs checkConflicts; shows the conflict
modal only for new events (has_conflict and not edit mode); otherwise issues
the update request when in edit mode with an edit id, else the create
request. The returned list is the trace of issued requests. -/
def handleSubmit (start stop : Int) (isEditMode : Bool) (editId : Option Nat)
    (response : Option ConflictCheckResult) : SubmitOutcome × List ApiRequest :=
  if start ≥ stop then
    (SubmitOutcome.invalidRangeError, [])
  else
    let conflictCheck := checkConflicts response
    let checkReq := ApiRequest.conflictCheck (if isEditMode then editId else none)
    if conflictCheck.has_conflict && !isEditMode then
      (SubmitOutcome.conflictModal conflictCheck, [checkReq])
    else
      match isEditMode, editId with
      | true, some i => (SubmitOutcome.submitted, [checkReq, ApiRequest.updateEvent i])
      | true, none => (SubmitOutcome.submitted, [checkReq, ApiRequest.createEvent])
      | false, _ => (SubmitOutcome.submitted, [checkReq, ApiRequest.createEvent])

/-- Notification record as delivered by the notifications endpoint and
consumed by the client: id, owner, status string and optional read
timestamp. The spec restricts status to unread and read. -/
structure Notification where
  id : Nat
  owner_id : Nat
  status : String
  read_at : Option Int
deriving DecidableEq

/-- Modelled from the spec: the backend endpoint PUT notifications id read
(server.py) is not under src. Spec section 4.4: MarkRead transitions unread
to read and sets readAt to now; calling it again is a no-op returning the
current already-read state, never an error; a missing id is NotFound,
modelled as none. -/
def MarkRead (now : Int) (ns : List Notification) (nid : Nat) :
    Option (List Notification) :=
  if ns.any (fun n => n.id == nid) then
    some (ns.map (fun n =>
      if n.id == nid && n.status == "unread" then
        { n with status := "read", read_at := some now }
      else n))
  else none

/-- Modelled from the spec: unread count is the count of notifications of
the owner whose status is unread (spec section 4.4). -/
def specUnreadCount (owner : Nat) (ns : List Notification) : Nat :=
  (ns.filter (fun n => n.owner_id == owner && n.status == "unread")).length

/-- Local state of the Notifications component (part_008 lines 3148 to 3152). -/
structure NotificationsState where
  notifications : List Notification
  unreadCount : Nat
  hasPlayedSound : Bool
deriving DecidableEq

/-- fetchNotifications of the Notifications component (part_008 lines 3154
to 3197): stores the fetched list, recomputes the unread count as the
number of fetched entries whose status differs from read, and sets the
sound flag when the new count exceeds the old one, is positive and the
flag was clear. -/
def fetchNotificationsUpdate (st : NotificationsState)
    (fetched : List Notification) : NotificationsState :=
  let newUnreadCount := (fetched.filter (fun n => !(n.status == "read"))).length
  let plays := decide (st.unreadCount < newUnreadCount)
      && decide (0 < newUnreadCount) && !st.hasPlayedSound
  { notifications := fetched,
    unreadCount := newUnreadCount,
    hasPlayedSound := st.hasPlayedSound || plays }

/-- fetchNotifications of the NotificationBell component (part_009 lines 52
to 71): stores the fetched list, recomputes the unread count as the number
of fetched entries with status unread, and reports whether the sound cue
plays (current count above the previous one). -/
def bellFetchUpdate (notifications fetched : List Notification) :
    (List Notification × Nat) × Bool :=
  let currentUnreadCount := (fetched.filter (fun n => n.status == "unread")).length
  let previousUnreadCount :=
    (notifications.filter (fun n => n.status == "unread")).length
  ((fetched, currentUnreadCount), decide (previousUnreadCount < currentUnreadCount))

/-- Reminder lead literal of the hook: 300000 milliseconds, five minutes
(part_008 line 3092). -/
def REMINDER_LEAD_MS : Int := 300000

/-- Polling interval literal of the hook: 30000 milliseconds, thirty seconds
(part_008 line 3121). -/
def POLL_INTERVAL_MS : Int := 30000

/-- Window test of the interval callback in useEventTimeNotifications
(part_008 lines 3087 to 3092): with timeDiff the start minus now, the event
is in the alert window iff timeDiff is positive and at most the lead. -/
def inWindow (now : Int) (e : Event) : Bool :=
  decide (0 < e.start_time - now) && decide (e.start_time - now ≤ REMINDER_LEAD_MS)

/-- One polling tick of useEventTimeNotifications (part_008 lines 3083 to
3121): every event in the alert window whose id is not yet in checkedEvents
fires once; fired ids are added to checkedEvents and one notification
(sound plus visual alert) is emitted per fired id. Within one tick all
membership tests read the pre-tick set, as the JS closure does. Returns the
new checkedEvents set and the list of fired event ids. -/
def tick (events : List Event) (checkedEvents : List Nat) (now : Int) :
    List Nat × List Nat :=
  let fired := (events.filter
      (fun e => inWindow now e && !(decide (e.id ∈ checkedEvents)))).map Event.id
  (checkedEvents ++ fired, fired)

/-- Cleanup effect of useEventTimeNotifications (part_008 lines 3127 to
3144): keeps exactly the previous entries whose event is still present with
a start in the future; entries of absent or past events are evicted. -/
def cleanup (events : List Event) (now : Int) (prev : List Nat) : List Nat :=
  ((events.filter (fun e => decide (now < e.start_time))).map Event.id).filter
    (fun i => decide (i ∈ prev))

/-- Repeated polling ticks over a fixed event list: threads checkedEvents
through the ticks and concatenates the emission log, each emission tagged
with its tick instant. -/
def runTicks (events : List Event) (checkedEvents : List Nat) :
    List Int → List Nat × List (Nat × Int)
  | [] => (checkedEvents, [])
  | t :: ts =>
    let s := tick events checkedEvents t
    let rest := runTicks events s.1 ts
    (rest.1, s.2.map (fun i => (i, t)) ++ rest.2)

theorem tick_mem_checked {events : List Event} {checkedEvents : List Nat}
    {now : Int} {a : Nat} (h : a ∈ checkedEvents) :
    a ∈ (tick events checkedEvents now).1 :=
  List.mem_append_left _ h

theorem tick_fired_not_checked {events : List Event} {checkedEvents : List Nat}
    {now : Int} {a : Nat} (h : a ∈ (tick events checkedEvents now).2) :
    a ∉ checkedEvents := by
  simp only [tick, List.mem_map] at h
  obtain ⟨e, he, rfl⟩ := h
  have hp := (List.mem_filter.mp he).2
  simp only [Bool.and_eq_true, Bool.not_eq_true', decide_eq_false_iff_not] at hp
  exact hp.2

theorem tick_fired_mem_events {events : List Event} {checkedEvents : List Nat}
    {now : Int} {a : Nat} (h : a ∈ (tick events checkedEvents now).2) :
    a ∈ events.map Event.id := by
  simp only [tick, List.mem_map] at h
  obtain ⟨e, he, rfl⟩ := h
  exact List.mem_map.mpr ⟨e, (List.mem_filter.mp he).1, rfl⟩

theorem tick_count_zero_of_checked {events : List Event}
    {checkedEvents : List Nat} {now : Int} {a : Nat} (h : a ∈ checkedEvents) :
    (tick events checkedEvents now).2.countP (fun i => i == a) = 0 := by
  rw [List.countP_eq_zero]
  intro b hb hba
  have hb_eq : b = a := by simpa using hba
  subst hb_eq
  exact tick_fired_not_checked hb h

theorem runTicks_count_zero_of_checked (events : List Event) (a : Nat) :
    ∀ (ts : List Int) (checkedEvents : List Nat), a ∈ checkedEvents →
      (runTicks events checkedEvents ts).2.countP (fun pr => pr.1 == a) = 0 := by
  intro ts
  induction ts with
  | nil => intro checked h; rfl
  | cons t ts ih =>
    intro checked h
    simp only [runTicks, List.countP_append, List.countP_map]
    have key : ((fun pr : Nat × Int => pr.1 == a) ∘ fun i => (i, t))
        = fun i : Nat => i == a := rfl
    rw [key, tick_count_zero_of_checked h,
      ih (tick events checked t).1 (tick_mem_checked h)]

theorem runTicks_count_zero_of_absent (events : List Event) (a : Nat)
    (hdel : a ∉ events.map Event.id) :
    ∀ (ts : List Int) (checkedEvents : List Nat),
      (runTicks events checkedEvents ts).2.countP (fun pr => pr.1 == a) = 0 := by
  intro ts
  induction ts with
  | nil => intro checked; rfl
  | cons t ts ih =>
    intro checked
    simp only [runTicks, List.countP_append, List.countP_map]
    have key : ((fun pr : Nat × Int => pr.1 == a) ∘ fun i => (i, t))
        = fun i : Nat => i == a := rfl
    rw [key]
    have h1 : (tick events checked t).2.countP (fun i => i == a) = 0 := by
      rw [List.countP_eq_zero]
      intro b hb hba
      have hb_eq : b = a := by simpa using hba
      subst hb_eq
      exact hdel (tick_fired_mem_events hb)
    rw [h1, ih (tick events checked t).1]

theorem tick_count_one {events : List Event} {checkedEvents : List Nat}
    {now : Int} {e : Event} (hmem : e ∈ events)
    (hnodup : (events.map Event.id).Nodup)
    (hnew : e.id ∉ checkedEvents) (hwin : inWindow now e = true) :
    (tick events checkedEvents now).2.countP (fun i => i == e.id) = 1 := by
  have hinj := List.inj_on_of_nodup_map hnodup
  have hnd : events.Nodup := List.Nodup.of_map _ hnodup
  simp only [tick, List.countP_map]
  rw [List.countP_filter]
  have hcongr : List.countP
      (fun ev => ((fun i => i == e.id) ∘ Event.id) ev
        && (inWindow now ev && !(decide (ev.id ∈ checkedEvents)))) events
      = List.countP (fun ev => ev == e) events := by
    apply List.countP_congr
    intro ev hev
    constructor
    · intro hl
      simp only [Function.comp_apply, Bool.and_eq_true, beq_iff_eq] at hl
      have hev_eq : ev = e := hinj hev hmem hl.1
      simp [hev_eq]
    · intro hr
      have hev_eq : ev = e := by simpa using hr
      subst hev_eq
      simp [Function.comp_apply, hwin, hnew]
  rw [hcongr]
  exact List.count_eq_one_of_mem hnd hmem

/-- Claim C8: for valid ranges the half-open overlap predicate is
symmetric, and two ranges where one ends exactly when the other starts do
not overlap in either order. -/
theorem C8_overlap_symmetry (A B : TimeRange)
    (hA : A.start < A.«end») (hB : B.start < B.«end») :
    Overlaps A B = Overlaps B A
      ∧ (A.«end» = B.start → Overlaps A B = false ∧ Overlaps B A = false) := by
  refine ⟨?_, fun h => ⟨?_, ?_⟩⟩
  · simp only [Overlaps, Bool.and_comm]
  · simp only [Overlaps, Bool.and_eq_false_iff, decide_eq_false_iff_not, not_lt]
    right
    omega
  · simp only [Overlaps, Bool.and_eq_false_iff, decide_eq_false_iff_not, not_lt]
    left
    omega

theorem C8_overlap_symmetry_witness :
    ((0 : Int) < 10 ∧ (10 : Int) < 20)
      ∧ (Overlaps ⟨0, 10⟩ ⟨10, 20⟩ = Overlaps ⟨10, 20⟩ ⟨0, 10⟩
        ∧ ((10 : Int) = 10 → Overlaps ⟨0, 10⟩ ⟨10, 20⟩ = false
            ∧ Overlaps ⟨10, 20⟩ ⟨0, 10⟩ = false)) :=
  ⟨⟨by decide, by decide⟩,
    C8_overlap_symmetry ⟨0, 10⟩ ⟨10, 20⟩ (by decide) (by decide)⟩

/-- Claim C9 fails as stated: the selectable recurrence set is exactly the
value none plus five fixed sub-daily multiples; it contains no hourly
interval, weekly multiple or minute interval variant. -/
theorem C9_counterexample :
    selectableRecurrenceValues
        = ["none", "once_daily", "twice_daily", "three_times_daily",
           "four_times_daily", "five_times_daily"]
      ∧ "every_hour" ∉ selectableRecurrenceValues
      ∧ "weekly" ∉ selectableRecurrenceValues
      ∧ "twice_weekly" ∉ selectableRecurrenceValues
      ∧ "every_15_minutes" ∉ selectableRecurrenceValues
      ∧ "every_30_minutes" ∉ selectableRecurrenceValues := by
  decide

/-- Claim C9 amended: every recurrence value a user can select is drawn
from a closed set, namely the value none plus the five fixed sub-daily
multiples once through five times per day. -/
theorem C9_amended_closed_set (v : String)
    (hv : v ∈ selectableRecurrenceValues) :
    v = "none" ∨ v ∈ ["once_daily", "twice_daily", "three_times_daily",
        "four_times_daily", "five_times_daily"] := by
  fin_cases hv <;> simp

theorem C9_amended_closed_set_witness :
    "once_daily" ∈ selectableRecurrenceValues
      ∧ ("once_daily" = "none"
        ∨ "once_daily" ∈ ["once_daily", "twice_daily", "three_times_daily",
            "four_times_daily", "five_times_daily"]) :=
  ⟨by decide, C9_amended_closed_set "once_daily" (by decide)⟩

/-- Claim C4: a submission with start at or after end is rejected
synchronously with the invalid range error, no request of any kind is
issued, and the outcome is never a conflict result. -/
theorem C4_invalid_range (start stop : Int) (isEditMode : Bool)
    (editId : Option Nat) (response : Option ConflictCheckResult)
    (h : start ≥ stop) :
    handleSubmit start stop isEditMode editId response
        = (SubmitOutcome.invalidRangeError, [])
      ∧ ∀ d, (handleSubmit start stop isEditMode editId response).1
          ≠ SubmitOutcome.conflictModal d := by
  constructor
  · simp [handleSubmit, h]
  · intro d
    simp [handleSubmit, h]

theorem C4_invalid_range_witness :
    (10 : Int) ≥ 10
      ∧ (handleSubmit 10 10 false none none
            = (SubmitOutcome.invalidRangeError, [])
        ∧ ∀ d, (handleSubmit 10 10 false none none).1
            ≠ SubmitOutcome.conflictModal d) :=
  ⟨by decide, C4_invalid_range 10 10 false none none (by decide)⟩

/-- Claim C3 fails as stated: with a conflicting check response, a creation
is stopped at the conflict modal, but an edit proceeds to issue the update
request with no modal shown before the update. -/
theorem C3_counterexample :
    handleSubmit 0 10 true (some 7)
        (some { has_conflict := true, conflicts := [42], suggested_slots := [] })
      = (SubmitOutcome.submitted,
          [ApiRequest.conflictCheck (some 7), ApiRequest.updateEvent 7])
    ∧ handleSubmit 0 10 false none
        (some { has_conflict := true, conflicts := [42], suggested_slots := [] })
      = (SubmitOutcome.conflictModal
            { has_conflict := true, conflicts := [42], suggested_slots := [] },
          [ApiRequest.conflictCheck none]) := by
  decide

/-- Claim C3 amended: editing re-runs the conflict check with the edited
events own id excluded in the request body, so the event is never reported
as conflicting with itself; but a detected conflict is not surfaced before
the update: for every check response the edit submission issues the update
request and shows no conflict modal. -/
theorem C3_edit_recheck (start stop : Int) (i : Nat)
    (response : Option ConflictCheckResult) (h : start < stop) :
    handleSubmit start stop true (some i) response
      = (SubmitOutcome.submitted,
          [ApiRequest.conflictCheck (some i), ApiRequest.updateEvent i]) := by
  have h2 : ¬(start ≥ stop) := not_le.mpr h
  simp [handleSubmit, h2]

theorem C3_edit_recheck_witness :
    (0 : Int) < 10
      ∧ handleSubmit 0 10 true (some 7)
          (some { has_conflict := false, conflicts := [], suggested_slots := [] })
        = (SubmitOutcome.submitted,
            [ApiRequest.conflictCheck (some 7), ApiRequest.updateEvent 7]) :=
  ⟨by decide, C3_edit_recheck 0 10 7 _ (by decide)⟩

/-- Claim C10: when the conflict check request fails, checkConflicts
returns the no-conflict default, and a valid submission behaves exactly as
if no conflict existed: same outcome as with an explicit no-conflict
response, the submission goes through, and a create or update request is
issued. -/
theorem C10_failed_check (start stop : Int) (isEditMode : Bool)
    (editId : Option Nat) (h : start < stop) :
    checkConflicts none
        = { has_conflict := false, conflicts := [], suggested_slots := [] }
      ∧ handleSubmit start stop isEditMode editId none
          = handleSubmit start stop isEditMode editId
              (some { has_conflict := false, conflicts := [], suggested_slots := [] })
      ∧ (handleSubmit start stop isEditMode editId none).1 = SubmitOutcome.submitted
      ∧ (ApiRequest.createEvent ∈ (handleSubmit start stop isEditMode editId none).2
          ∨ ∃ i, ApiRequest.updateEvent i
              ∈ (handleSubmit start stop isEditMode editId none).2) := by
  have h2 : ¬(start ≥ stop) := not_le.mpr h
  refine ⟨rfl, rfl, ?_, ?_⟩
  · cases isEditMode <;> cases editId <;> simp [handleSubmit, h2, checkConflicts]
  · cases isEditMode with
    | false =>
      exact Or.inl (by cases editId <;> simp [handleSubmit, h2, checkConflicts])
    | true =>
      cases editId with
      | none => exact Or.inl (by simp [handleSubmit, h2, checkConflicts])
      | some i => exact Or.inr ⟨i, by simp [handleSubmit, h2, checkConflicts]⟩

theorem C10_failed_check_witness :
    (0 : Int) < 10
      ∧ (checkConflicts none
            = { has_conflict := false, conflicts := [], suggested_slots := [] }
        ∧ handleSubmit 0 10 false none none
            = handleSubmit 0 10 false none
                (some { has_conflict := false, conflicts := [], suggested_slots := [] })
        ∧ (handleSubmit 0 10 false none none).1 = SubmitOutcome.submitted
        ∧ (ApiRequest.createEvent ∈ (handleSubmit 0 10 false none none).2
            ∨ ∃ i, ApiRequest.updateEvent i
                ∈ (handleSubmit 0 10 false none none).2)) :=
  ⟨by decide, C10_failed_check 0 10 false none (by decide)⟩

/-- Claim C1: at-most-once firing: for a fixed event, over any nonempty run
of polling ticks whose windows all cover the events trigger instant, with
the event present under a unique id and not yet in checkedEvents, exactly
one reminder emission for that event occurs; membership of the id in
checkedEvents is what blocks every later tick. -/
theorem C1_at_most_once_firing (events : List Event) (checkedEvents : List Nat)
    (times : List Int) (e : Event) (hmem : e ∈ events)
    (hnodup : (events.map Event.id).Nodup) (hnew : e.id ∉ checkedEvents)
    (hne : times ≠ [])
    (hcover : ∀ t ∈ times, inWindow t e = true) :
    (runTicks events checkedEvents times).2.countP
        (fun pr => pr.1 == e.id) = 1 := by
  cases times with
  | nil => exact absurd rfl hne
  | cons t ts =>
    simp only [runTicks, List.countP_append, List.countP_map]
    have key : ((fun pr : Nat × Int => pr.1 == e.id) ∘ fun i => (i, t))
        = fun i : Nat => i == e.id := rfl
    rw [key]
    have hwin : inWindow t e = true := hcover t (List.mem_cons_self t ts)
    have h1 := tick_count_one hmem hnodup hnew hwin
    have hfired : e.id ∈ (tick events checkedEvents t).2 := by
      simp only [tick, List.mem_map]
      exact ⟨e, List.mem_filter.mpr ⟨hmem, by simp [hwin, hnew]⟩, rfl⟩
    have h2 : (runTicks events (tick events checkedEvents t).1 ts).2.countP
        (fun pr => pr.1 == e.id) = 0 :=
      runTicks_count_zero_of_checked events e.id ts _
        (List.mem_append_right _ hfired)
    rw [h1, h2]

theorem C1_at_most_once_firing_witness :
    ((⟨1, "A", 200000⟩ : Event) ∈ [(⟨1, "A", 200000⟩ : Event)]
      ∧ ([(⟨1, "A", 200000⟩ : Event)].map Event.id).Nodup
      ∧ (1 : Nat) ∉ ([] : List Nat)
      ∧ ([0, 30000] : List Int) ≠ []
      ∧ ∀ t ∈ ([0, 30000] : List Int), inWindow t ⟨1, "A", 200000⟩ = true)
    ∧ (runTicks [⟨1, "A", 200000⟩] [] [0, 30000]).2.countP
        (fun pr => pr.1 == (⟨1, "A", 200000⟩ : Event).id) = 1 :=
  ⟨⟨by decide, by decide, by decide, by decide, by decide⟩,
    C1_at_most_once_firing [⟨1, "A", 200000⟩] [] [0, 30000] ⟨1, "A", 200000⟩
      (by decide) (by decide) (by decide) (by decide) (by decide)⟩

/-- Claim C2 fails as stated: at now equal to zero, an event starting at
600000 has trigger instant 300000, which lies inside the stated window
from now to now plus the lead, and it is unfired, yet the tick emits
nothing for it. -/
theorem C2_counterexample :
    ((0 : Int) ≤ (600000 : Int) - REMINDER_LEAD_MS
      ∧ (600000 : Int) - REMINDER_LEAD_MS ≤ 0 + REMINDER_LEAD_MS
      ∧ (1 : Nat) ∉ ([] : List Nat))
    ∧ (tick [⟨1, "A", 600000⟩] [] 0).2 = [] := by
  decide

/-- Claim C2 amended: on a polling tick at instant now, an event with a
unique id fires iff its start lies strictly after now and at most one lead
beyond now, equivalently iff its trigger instant, the start minus the
lead, lies in the half-open window from now minus the lead exclusive to
now inclusive, and its id is not already in checkedEvents. -/
theorem C2_trigger_window (events : List Event) (checkedEvents : List Nat)
    (now : Int) (e : Event) (hmem : e ∈ events)
    (hnodup : (events.map Event.id).Nodup) :
    e.id ∈ (tick events checkedEvents now).2
      ↔ (now < e.start_time ∧ e.start_time ≤ now + REMINDER_LEAD_MS
          ∧ e.id ∉ checkedEvents) := by
  have hinj := List.inj_on_of_nodup_map hnodup
  constructor
  · intro h
    simp only [tick, List.mem_map] at h
    obtain ⟨ev, hev, hid⟩ := h
    obtain ⟨hev_mem, hev_pred⟩ := List.mem_filter.mp hev
    have hev_eq : ev = e := hinj hev_mem hmem hid
    subst hev_eq
    simp only [inWindow, REMINDER_LEAD_MS, Bool.and_eq_true, decide_eq_true_eq,
      Bool.not_eq_true', decide_eq_false_iff_not] at hev_pred
    obtain ⟨⟨h1, h2⟩, h3⟩ := hev_pred
    exact ⟨by omega, by simp only [REMINDER_LEAD_MS]; omega, h3⟩
  · intro h
    obtain ⟨h1, h2, h3⟩ := h
    simp only [REMINDER_LEAD_MS] at h2
    simp only [tick, List.mem_map]
    refine ⟨e, List.mem_filter.mpr ⟨hmem, ?_⟩, rfl⟩
    simp only [inWindow, REMINDER_LEAD_MS, Bool.and_eq_true, decide_eq_true_eq,
      Bool.not_eq_true', decide_eq_false_iff_not]
    exact ⟨⟨by omega, by omega⟩, h3⟩

theorem C2_trigger_window_witness :
    ((⟨1, "A", 200000⟩ : Event) ∈ [(⟨1, "A", 200000⟩ : Event)]
      ∧ ([(⟨1, "A", 200000⟩ : Event)].map Event.id).Nodup)
    ∧ ((⟨1, "A", 200000⟩ : Event).id ∈ (tick [⟨1, "A", 200000⟩] [] 0).2
        ↔ ((0 : Int) < (⟨1, "A", 200000⟩ : Event).start_time
            ∧ (⟨1, "A", 200000⟩ : Event).start_time ≤ 0 + REMINDER_LEAD_MS
            ∧ (⟨1, "A", 200000⟩ : Event).id ∉ ([] : List Nat))) :=
  ⟨⟨by decide, by decide⟩,
    C2_trigger_window [⟨1, "A", 200000⟩] [] 0 ⟨1, "A", 200000⟩
      (by decide) (by decide)⟩

/-- Claim C6: once an event is deleted from the polled list, no run of
ticks ever emits for its id; a cleanup pass keeps an id only when its event
is still present with a future start, so entries of absent or past events
are evicted, in particular the entry of the deleted event; and the
emission log of a run is append-only: the emissions of the first tick stay
as a prefix of the whole log, so nothing already emitted is retracted. -/
theorem C6_deletion_cancels (events : List Event)
    (checkedEvents prev : List Nat) (times : List Int) (eid : Nat) (now : Int)
    (hdel : eid ∉ events.map Event.id) :
    (runTicks events checkedEvents times).2.countP (fun pr => pr.1 == eid) = 0
      ∧ eid ∉ cleanup events now prev
      ∧ (∀ i ∈ cleanup events now prev,
          i ∈ prev ∧ ∃ ev ∈ events, ev.id = i ∧ now < ev.start_time)
      ∧ (∀ t ts, ∃ rest, (runTicks events checkedEvents (t :: ts)).2
          = ((tick events checkedEvents t).2.map (fun i => (i, t))) ++ rest) := by
  refine ⟨runTicks_count_zero_of_absent events eid hdel times checkedEvents,
    ?_, ?_, ?_⟩
  · intro hmem
    have hsplit := List.mem_filter.mp hmem
    have h2 := hsplit.1
    simp only [List.mem_map] at h2
    obtain ⟨ev, hev, hid⟩ := h2
    exact hdel (List.mem_map.mpr ⟨ev, (List.mem_filter.mp hev).1, hid⟩)
  · intro i hi
    obtain ⟨h2, h3⟩ := List.mem_filter.mp hi
    refine ⟨by simpa using h3, ?_⟩
    simp only [List.mem_map] at h2
    obtain ⟨ev, hev, hid⟩ := h2
    obtain ⟨hev_mem, hfut⟩ := List.mem_filter.mp hev
    exact ⟨ev, hev_mem, hid, by simpa using hfut⟩
  · intro t ts
    exact ⟨(runTicks events (tick events checkedEvents t).1 ts).2, rfl⟩

theorem C6_deletion_cancels_witness :
    (1 : Nat) ∉ [(⟨2, "B", 1000⟩ : Event)].map Event.id
    ∧ ((runTicks [(⟨2, "B", 1000⟩ : Event)] [] [0]).2.countP
          (fun pr => pr.1 == 1) = 0
      ∧ (1 : Nat) ∉ cleanup [⟨2, "B", 1000⟩] 0 [1, 2]
      ∧ (∀ i ∈ cleanup [(⟨2, "B", 1000⟩ : Event)] 0 [1, 2],
          i ∈ [1, 2] ∧ ∃ ev ∈ [(⟨2, "B", 1000⟩ : Event)],
            ev.id = i ∧ (0 : Int) < ev.start_time)
      ∧ (∀ t ts, ∃ rest, (runTicks [(⟨2, "B", 1000⟩ : Event)] [] (t :: ts)).2
          = ((tick [(⟨2, "B", 1000⟩ : Event)] [] t).2.map (fun i => (i, t)))
              ++ rest)) :=
  ⟨by decide,
    C6_deletion_cancels [⟨2, "B", 1000⟩] [] [1, 2] [0] 1 0 (by decide)⟩

theorem map_eq_self_of_forall_eq {α : Type} {l : List α} {f : α → α}
    (h : ∀ a ∈ l, f a = a) : l.map f = l := by
  induction l with
  | nil => rfl
  | cons x xs ih =>
    simp only [List.map_cons]
    rw [h x (List.mem_cons_self x xs),
      ih (fun a ha => h a (List.mem_cons_of_mem x ha))]

/-- Claim C5: MarkRead is idempotent: when the id exists, the first call
returns an updated list in which the target notification is read with
readAt set, the second call is a no-op returning the same list and not an
error, and every owners unread count after the second call equals the
count after the first. Modelled from the spec, as the backend endpoint is
not under src. -/
theorem C5_markread_idempotent (ns : List Notification) (nid : Nat)
    (t1 t2 : Int)
    (hex : ns.any (fun n => n.id == nid) = true)
    (hstat : ∀ n ∈ ns, n.status = "unread" ∨ n.status = "read")
    (hwf : ∀ n ∈ ns, n.status = "read" → n.read_at.isSome = true) :
    ∃ ns1, MarkRead t1 ns nid = some ns1
      ∧ MarkRead t2 ns1 nid = some ns1
      ∧ (∀ n ∈ ns1, n.id = nid → n.status = "read" ∧ n.read_at.isSome = true)
      ∧ (∀ owner, specUnreadCount owner ((MarkRead t2 ns1 nid).getD [])
          = specUnreadCount owner ns1) := by
  have hA : MarkRead t1 ns nid
      = some (ns.map (fun n => if n.id == nid && n.status == "unread"
          then { n with status := "read", read_at := some t1 } else n)) := by
    unfold MarkRead
    rw [if_pos hex]
  have hany2 : (ns.map (fun n => if n.id == nid && n.status == "unread"
      then { n with status := "read", read_at := some t1 } else n)).any
      (fun n => n.id == nid) = true := by
    rw [List.any_eq_true] at hex ⊢
    obtain ⟨n, hn, hpn⟩ := hex
    refine ⟨_, List.mem_map_of_mem _ hn, ?_⟩
    split <;> simpa using hpn
  have hB : MarkRead t2 (ns.map (fun n => if n.id == nid && n.status == "unread"
      then { n with status := "read", read_at := some t1 } else n)) nid
      = some (ns.map (fun n => if n.id == nid && n.status == "unread"
          then { n with status := "read", read_at := some t1 } else n)) := by
    unfold MarkRead
    rw [if_pos hany2]
    congr 1
    apply map_eq_self_of_forall_eq
    intro m hm
    simp only [List.mem_map] at hm
    obtain ⟨n, hn, rfl⟩ := hm
    by_cases hcond : (n.id == nid && n.status == "unread") = true
    · rw [if_pos hcond]
      rw [if_neg]
      simp
    · rw [if_neg hcond, if_neg hcond]
  refine ⟨_, hA, hB, ?_, ?_⟩
  · intro m hm hid
    simp only [List.mem_map] at hm
    obtain ⟨n, hn, rfl⟩ := hm
    by_cases hcond : (n.id == nid && n.status == "unread") = true
    · rw [if_pos hcond] at hid ⊢
      exact ⟨rfl, rfl⟩
    · rw [if_neg hcond] at hid ⊢
      have h1 : (n.id == nid) = true := by simpa using hid
      have hneq : n.status ≠ "unread" := by
        intro hs
        exact hcond (by simp [h1, hs])
      have h3 : n.status = "read" := (hstat n hn).resolve_left hneq
      exact ⟨h3, hwf n hn h3⟩
  · intro owner
    simp only [hB, Option.getD_some]

theorem C5_markread_idempotent_witness :
    (([⟨1, 7, "unread", none⟩] : List Notification).any
          (fun n => n.id == 1) = true
      ∧ (∀ n ∈ ([⟨1, 7, "unread", none⟩] : List Notification),
          n.status = "unread" ∨ n.status = "read")
      ∧ (∀ n ∈ ([⟨1, 7, "unread", none⟩] : List Notification),
          n.status = "read" → n.read_at.isSome = true))
    ∧ (∃ ns1, MarkRead 10 [⟨1, 7, "unread", none⟩] 1 = some ns1
        ∧ MarkRead 20 ns1 1 = some ns1
        ∧ (∀ n ∈ ns1, n.id = 1 → n.status = "read" ∧ n.read_at.isSome = true)
        ∧ (∀ owner, specUnreadCount owner ((MarkRead 20 ns1 1).getD [])
            = specUnreadCount owner ns1)) :=
  ⟨⟨by decide, by decide, by decide⟩,
    C5_markread_idempotent [⟨1, 7, "unread", none⟩] 1 10 20
      (by decide) (by decide) (by decide)⟩

/-- Claim C7: at every fetch the stored unread count equals the number of
fetched notifications whose status differs from read, recomputed from the
fetched list alone and independent of the previous state; with statuses
drawn from unread and read, the NotificationBell component computes the
same count. -/
theorem C7_unread_count_recomputed (st st2 : NotificationsState)
    (prev fetched : List Notification)
    (hwf : ∀ n ∈ fetched, n.status = "unread" ∨ n.status = "read") :
    (fetchNotificationsUpdate st fetched).unreadCount
        = (fetched.filter (fun n => !(n.status == "read"))).length
      ∧ (fetchNotificationsUpdate st fetched).unreadCount
          = (fetchNotificationsUpdate st2 fetched).unreadCount
      ∧ (bellFetchUpdate prev fetched).1.2
          = (fetched.filter (fun n => !(n.status == "read"))).length := by
  refine ⟨rfl, rfl, ?_⟩
  simp only [bellFetchUpdate]
  congr 1
  apply List.filter_congr
  intro n hn
  rcases hwf n hn with h | h <;> simp [h]

theorem C7_unread_count_recomputed_witness :
    (∀ n ∈ ([⟨1, 7, "unread", none⟩, ⟨2, 7, "read", some 5⟩] :
        List Notification), n.status = "unread" ∨ n.status = "read")
    ∧ ((fetchNotificationsUpdate ⟨[], 0, false⟩
            [⟨1, 7, "unread", none⟩, ⟨2, 7, "read", some 5⟩]).unreadCount
          = (([⟨1, 7, "unread", none⟩, ⟨2, 7, "read", some 5⟩] :
              List Notification).filter (fun n => !(n.status == "read"))).length
      ∧ (fetchNotificationsUpdate ⟨[], 0, false⟩
            [⟨1, 7, "unread", none⟩, ⟨2, 7, "read", some 5⟩]).unreadCount
          = (fetchNotificationsUpdate ⟨[], 3, true⟩
              [⟨1, 7, "unread", none⟩, ⟨2, 7, "read", some 5⟩]).unreadCount
      ∧ (bellFetchUpdate [] [⟨1, 7, "unread", none⟩, ⟨2, 7, "read", some 5⟩]).1.2
          = (([⟨1, 7, "unread", none⟩, ⟨2, 7, "read", some 5⟩] :
              List Notification).filter (fun n => !(n.status == "read"))).length) :=
  ⟨by decide,
    C7_unread_count_recomputed ⟨[], 0, false⟩ ⟨[], 3, true⟩ []
      [⟨1, 7, "unread", none⟩, ⟨2, 7, "read", some 5⟩] (by decide)⟩

end ItinerarySystem
